import Mathlib

/-!
Verification of the CalorieCount calculation engine.

The definitions below are a shallow embedding of the two source files
`src/client/src/lib/calorie-calculator.ts` (the pure calculator functions)
and `src/client/src/pages/home.tsx` (the zod validation schema and the
submit handler that assembles a `CalculationResult`).

JavaScript numbers are modelled as rationals (`ℚ`); the inputs in scope
(bounded integers and one-decimal weights, and the five fixed activity
multipliers) are all exactly representable as doubles, so double
arithmetic on them coincides with exact rational arithmetic.
`Math.round` rounds half away from zero toward positive infinity,
which is Mathlib's `round` on `ℚ` (`round x = ⌊x + 1/2⌋`).
-/

namespace CalorieCount

/-- Embedding of `calculateBMR` from `calorie-calculator.ts`:
`if (gender === "male") bmr = 10w + 6.25h - 5a + 5 else bmr = 10w + 6.25h - 5a - 161;
return Math.round(bmr)`. -/
def calculateBMR (gender : String) (weight height age : ℚ) : ℤ :=
  if gender = "male" then
    round (10 * weight + 6.25 * height - 5 * age + 5)
  else
    round (10 * weight + 6.25 * height - 5 * age - 161)

/-- Embedding of `calculateDailyCalories` from `calorie-calculator.ts`:
`return Math.round(bmr * activityMultiplier)`. -/
def calculateDailyCalories (bmr activityMultiplier : ℚ) : ℤ :=
  round (bmr * activityMultiplier)

/-- Embedding of `getActivityDescription` from `calorie-calculator.ts`:
a lookup in the fixed five-entry record `descriptions`, with the fallback
`|| "Unknown activity level"` (every stored description is non-empty, hence
truthy, so the record lookup semantics is exactly this chain of key tests). -/
def getActivityDescription (activityLevel : String) : String :=
  if activityLevel = "1.2" then "Sedentary lifestyle"
  else if activityLevel = "1.375" then "Lightly active"
  else if activityLevel = "1.55" then "Moderately active"
  else if activityLevel = "1.725" then "Very active"
  else if activityLevel = "1.9" then "Super active"
  else "Unknown activity level"

/-! ## Validation (the zod schema `calorieFormSchema` in `home.tsx`) -/

/-- The raw form data validated by `calorieFormSchema` in `home.tsx`
(the case where every field is present and the numeric fields parsed as
numbers; the claims under verification are about values of this shape). -/
structure CalorieFormRaw where
  gender : String
  age : ℚ
  weight : ℚ
  height : ℚ
  activityLevel : String
deriving DecidableEq, Repr

/-- A field-level zod issue: the offending field path and the message
configured in `calorieFormSchema`. -/
structure ValidationIssue where
  field : String
  message : String
deriving DecidableEq, Repr

/-- Issues produced for the `gender` field by
`z.enum(["male", "female"], ...)`: a present value outside the two-element
enumeration yields one invalid-enum-value issue. -/
def genderIssues (gender : String) : List ValidationIssue :=
  if gender = "male" ∨ gender = "female" then []
  else [⟨"gender", "Invalid enum value"⟩]

/-- Issues produced for the `age` field by
`z.number().min(16, "Age must be at least 16").max(100, "Age must be at most 100")`:
zod runs every check in the chain and reports each failure. -/
def ageIssues (age : ℚ) : List ValidationIssue :=
  (if age < 16 then [⟨"age", "Age must be at least 16"⟩] else []) ++
  (if 100 < age then [⟨"age", "Age must be at most 100"⟩] else [])

/-- Issues produced for the `weight` field by
`z.number().min(30, ...).max(300, ...)`. -/
def weightIssues (weight : ℚ) : List ValidationIssue :=
  (if weight < 30 then [⟨"weight", "Weight must be at least 30 kg"⟩] else []) ++
  (if 300 < weight then [⟨"weight", "Weight must be at most 300 kg"⟩] else [])

/-- Issues produced for the `height` field by
`z.number().min(120, ...).max(250, ...)`. -/
def heightIssues (height : ℚ) : List ValidationIssue :=
  (if height < 120 then [⟨"height", "Height must be at least 120 cm"⟩] else []) ++
  (if 250 < height then [⟨"height", "Height must be at most 250 cm"⟩] else [])

/-- Embedding of parsing with `calorieFormSchema` (a `z.object`): zod
validates every property of the object independently and aggregates all
field issues, so the issue list is the concatenation of the per-field
issue lists. A present `activityLevel` string always passes `z.string()`,
contributing no issues. -/
def calorieFormSchemaIssues (f : CalorieFormRaw) : List ValidationIssue :=
  genderIssues f.gender ++ ageIssues f.age ++ weightIssues f.weight ++
    heightIssues f.height

/-! ## The submit handler (`onSubmit` in `home.tsx`) -/

/-- The `CalculationResult` interface of `home.tsx`. -/
structure CalculationResult where
  bmr : ℤ
  dailyCalories : ℤ
  activityMultiplier : ℚ
  activityDescription : String
  formula : String
deriving DecidableEq, Repr

/-- Numeric value of a decimal digit character. -/
def digitVal (c : Char) : ℕ := c.toNat - 48

/-- Value of a list of decimal digit characters read in base 10. -/
def digitsVal (l : List Char) : ℕ :=
  l.foldl (fun a c => 10 * a + digitVal c) 0

/-- Model of JavaScript `parseFloat` on the plain decimal numerals that
occur as activity-level values (`"1.2"`, `"1.375"`, `"1.55"`, `"1.725"`,
`"1.9"`): integer part, and fractional part scaled by a power of ten. -/
def parseFloat (s : String) : ℚ :=
  match s.split (fun c => c = Char.ofNat 46) with
  | [intPart] => (digitsVal intPart.toList : ℚ)
  | [intPart, fracPart] =>
      (digitsVal intPart.toList : ℚ) +
        (digitsVal fracPart.toList : ℚ) / (10 : ℚ) ^ fracPart.length
  | _ => 0

/-- Embedding of the computation performed by `onSubmit` in `home.tsx` on
validated form data: it calls `calculateBMR`, `parseFloat`,
`calculateDailyCalories` and `getActivityDescription` on fields of `data`
only, chooses the formula text by gender, and assembles the
`CalculationResult` passed to `setCalculationResult`. -/
def onSubmitResult (data : CalorieFormRaw) : CalculationResult :=
  let bmr := calculateBMR data.gender data.weight data.height data.age
  let activityMultiplier := parseFloat data.activityLevel
  let dailyCalories := calculateDailyCalories (bmr : ℚ) activityMultiplier
  let activityDescription := getActivityDescription data.activityLevel
  let formula :=
    if data.gender = "male" then
      "BMR = (10 × weight) + (6.25 × height) - (5 × age) + 5"
    else
      "BMR = (10 × weight) + (6.25 × height) - (5 × age) - 161"
  ⟨bmr, dailyCalories, activityMultiplier, activityDescription, formula⟩

/-! ## Spec-side field validity predicates (for stating exhaustiveness) -/

/-- The `gender` field is one of the two enumerated values. -/
abbrev genderAccepted (g : String) : Prop := g = "male" ∨ g = "female"

/-- The `age` field satisfies the documented range `16 ≤ age ≤ 100`. -/
abbrev ageInRange (a : ℚ) : Prop := 16 ≤ a ∧ a ≤ 100

/-- The `weight` field satisfies the documented range `30 ≤ weight ≤ 300`. -/
abbrev weightInRange (w : ℚ) : Prop := 30 ≤ w ∧ w ≤ 300

/-- The `height` field satisfies the documented range `120 ≤ height ≤ 250`. -/
abbrev heightInRange (h : ℚ) : Prop := 120 ≤ h ∧ h ≤ 250

/-- Number of invalid fields of a raw form value, judged by the spec-side
validity predicates, one count per field. -/
def invalidFieldCount (f : CalorieFormRaw) : ℕ :=
  (if genderAccepted f.gender then 0 else 1) +
  (if ageInRange f.age then 0 else 1) +
  (if weightInRange f.weight then 0 else 1) +
  (if heightInRange f.height then 0 else 1)

/-! ## Helper lemmas -/

theorem genderIssues_length (g : String) :
    (genderIssues g).length = if genderAccepted g then 0 else 1 := by
  unfold genderIssues genderAccepted
  split_ifs <;> simp_all

theorem ageIssues_length (a : ℚ) :
    (ageIssues a).length = if ageInRange a then 0 else 1 := by
  unfold ageIssues ageInRange
  split_ifs <;> simp_all <;> linarith

theorem weightIssues_length (w : ℚ) :
    (weightIssues w).length = if weightInRange w then 0 else 1 := by
  unfold weightIssues weightInRange
  split_ifs <;> simp_all <;> linarith

theorem heightIssues_length (h : ℚ) :
    (heightIssues h).length = if heightInRange h then 0 else 1 := by
  unfold heightIssues heightInRange
  split_ifs <;> simp_all <;> linarith

/-! ## Claim theorems -/

/-- C1: for every weight, height and age, `calculateBMR` with gender
`"male"` returns `round (10·w + 6.25·h − 5·a + 5)` and with gender
`"female"` returns `round (10·w + 6.25·h − 5·a − 161)`; in particular it
returns 1674 for the male example (70 kg, 175 cm, 25 y) and 1320 for the
female example (60 kg, 165 cm, 30 y). -/
theorem calculateBMR_formula :
    (∀ w h a : ℚ, calculateBMR "male" w h a = round (10 * w + 6.25 * h - 5 * a + 5)) ∧
    (∀ w h a : ℚ, calculateBMR "female" w h a = round (10 * w + 6.25 * h - 5 * a - 161)) ∧
    calculateBMR "male" 70 175 25 = 1674 ∧
    calculateBMR "female" 60 165 30 = 1320 := by
  refine ⟨fun w h a => by simp [calculateBMR], fun w h a => by simp [calculateBMR], ?_, ?_⟩
  · norm_num [calculateBMR, round_eq]
  · norm_num [calculateBMR, round_eq]
    decide

/-- C2: for every bmr and every recognized activity multiplier,
`calculateDailyCalories` returns `round (bmr × multiplier)`; in particular
for bmr = 1674 and multiplier = 1.55 it returns 2595. -/
theorem calculateDailyCalories_formula :
    (∀ bmr m : ℚ, (m = 1.2 ∨ m = 1.375 ∨ m = 1.55 ∨ m = 1.725 ∨ m = 1.9) →
      calculateDailyCalories bmr m = round (bmr * m)) ∧
    calculateDailyCalories 1674 1.55 = 2595 := by
  refine ⟨fun bmr m _ => rfl, ?_⟩
  norm_num [calculateDailyCalories, round_eq]

/-- Witness for C2 at bmr = 1674, multiplier = 1.55 (a recognized value). -/
theorem calculateDailyCalories_formula_witness :
    calculateDailyCalories 1674 1.55 = round ((1674 : ℚ) * 1.55) :=
  calculateDailyCalories_formula.1 1674 1.55 (by norm_num)

/-- C3 counterexample: for the non-enumerated gender `"unknown"` with
weight 70, height 175, age 25, `calculateBMR` does not fail: it computes
1508, the very value of the female branch at the same inputs, so a
non-male value is silently treated as female. -/
theorem calculateBMR_failFast_counterexample :
    calculateBMR "unknown" 70 175 25 = 1508 ∧
    calculateBMR "female" 70 175 25 = 1508 := by
  constructor <;> norm_num [calculateBMR, round_eq] <;> decide

/-- C3 amended: `calculateBMR` accepts every gender string: `"male"`
selects the male formula and every other value, enumerated or not, is
computed with the female branch `round (10·w + 6.25·h − 5·a − 161)`; no
error is ever signalled. -/
theorem calculateBMR_nonMale_femaleBranch :
    ∀ (gender : String) (w h a : ℚ), gender ≠ "male" →
      calculateBMR gender w h a = round (10 * w + 6.25 * h - 5 * a - 161) := by
  intro g w h a hg
  simp [calculateBMR, hg]

/-- Witness for the amended C3 at gender `"other"`. -/
theorem calculateBMR_nonMale_femaleBranch_witness :
    calculateBMR "other" 70 175 25 = round ((10 * 70 + 6.25 * 175 - 5 * 25 - 161 : ℚ)) :=
  calculateBMR_nonMale_femaleBranch "other" 70 175 25 (by decide)

/-- C4 counterexample: for the unrecognized multiplier 2 (not among
{1.2, 1.375, 1.55, 1.725, 1.9}), `calculateDailyCalories` raises no error:
it computes `round (1674 × 2) = 3348`, and does not default the
multiplier to 1.0 (which would give 1674). -/
theorem calculateDailyCalories_noError_counterexample :
    calculateDailyCalories 1674 2 = 3348 ∧
    calculateDailyCalories 1674 2 ≠ calculateDailyCalories 1674 1 := by
  constructor <;> norm_num [calculateDailyCalories, round_eq]

/-- C4 amended: `calculateDailyCalories` performs no validation of the
multiplier: for every multiplier outside the five fixed values it still
returns `round (bmr × multiplier)` — it neither raises an
UnrecognizedActivityLevel error nor defaults the multiplier to 1.0. -/
theorem calculateDailyCalories_noValidation :
    ∀ bmr m : ℚ, ¬(m = 1.2 ∨ m = 1.375 ∨ m = 1.55 ∨ m = 1.725 ∨ m = 1.9) →
      calculateDailyCalories bmr m = round (bmr * m) := by
  intro bmr m _
  rfl

/-- Witness for the amended C4 at the unrecognized multiplier 2. -/
theorem calculateDailyCalories_noValidation_witness :
    calculateDailyCalories 1674 2 = round ((1674 : ℚ) * 2) :=
  calculateDailyCalories_noValidation 1674 2 (by norm_num)

/-- C5 counterexample: the sentinel string actually returned for an
unrecognized activity level is `"Unknown activity level"` (capital U),
not the string `"unknown activity level"` stated in the claim. -/
theorem getActivityDescription_sentinel_counterexample :
    getActivityDescription "2.0" = "Unknown activity level" ∧
    getActivityDescription "2.0" ≠ "unknown activity level" := by
  constructor <;> decide

/-- C5 amended: `getActivityDescription` returns a non-sentinel
description for exactly the five defined multiplier keys and the sentinel
`"Unknown activity level"` for every other input, including `"0"`,
negative values and `"2.0"`; being a total function it never fails. -/
theorem getActivityDescription_closure :
    (∀ s : String,
      getActivityDescription s ≠ "Unknown activity level" ↔
        (s = "1.2" ∨ s = "1.375" ∨ s = "1.55" ∨ s = "1.725" ∨ s = "1.9")) ∧
    getActivityDescription "0" = "Unknown activity level" ∧
    getActivityDescription "-5" = "Unknown activity level" ∧
    getActivityDescription "2.0" = "Unknown activity level" ∧
    getActivityDescription "2" = "Unknown activity level" := by
  refine ⟨fun s => ?_, by decide, by decide, by decide, by decide⟩
  unfold getActivityDescription
  split_ifs <;> simp_all

/-- C6: validation accepts the range boundaries inclusively and rejects
values outside them with the corresponding out-of-range message: age 16
and 100, weight 30 and 300, height 120 and 250 produce no issues, while
age 15, age 101, weight 29.9 and height 251 each produce exactly the
violated bound's issue. -/
theorem calorieFormSchema_boundaries :
    calorieFormSchemaIssues ⟨"male", 16, 30, 120, "1.2"⟩ = [] ∧
    calorieFormSchemaIssues ⟨"female", 100, 300, 250, "1.9"⟩ = [] ∧
    calorieFormSchemaIssues ⟨"male", 15, 70, 175, "1.2"⟩ =
      [⟨"age", "Age must be at least 16"⟩] ∧
    calorieFormSchemaIssues ⟨"male", 101, 70, 175, "1.2"⟩ =
      [⟨"age", "Age must be at most 100"⟩] ∧
    calorieFormSchemaIssues ⟨"male", 30, 29.9, 175, "1.2"⟩ =
      [⟨"weight", "Weight must be at least 30 kg"⟩] ∧
    calorieFormSchemaIssues ⟨"male", 30, 70, 251, "1.2"⟩ =
      [⟨"height", "Height must be at most 250 cm"⟩] := by
  refine ⟨?_, ?_, ?_, ?_, ?_, ?_⟩ <;>
    norm_num [calorieFormSchemaIssues, genderIssues, ageIssues, weightIssues, heightIssues]

/-- C7: validation checks every field independently with no
short-circuit: the number of issues equals the number of invalid fields
(one issue per violated field), and in particular the input with age 10,
weight 10, height 500 — invalid in exactly those three fields — yields
exactly three issues. -/
theorem calorieFormSchema_exhaustive :
    (∀ f : CalorieFormRaw, (calorieFormSchemaIssues f).length = invalidFieldCount f) ∧
    (calorieFormSchemaIssues ⟨"male", 10, 10, 500, "1.2"⟩).length = 3 := by
  have key : ∀ f : CalorieFormRaw,
      (calorieFormSchemaIssues f).length = invalidFieldCount f := by
    intro f
    simp only [calorieFormSchemaIssues, List.length_append, genderIssues_length,
      ageIssues_length, weightIssues_length, heightIssues_length, invalidFieldCount]
  refine ⟨key, ?_⟩
  norm_num [calorieFormSchemaIssues, genderIssues, ageIssues, weightIssues, heightIssues]

/-- C8: validation rejects every gender other than the two enumerated
values: the invalid-enum issue for the gender field is always among the
issues, so no such value passes as female. -/
theorem calorieFormSchema_sexExhaustive :
    ∀ f : CalorieFormRaw, f.gender ≠ "male" → f.gender ≠ "female" →
      (⟨"gender", "Invalid enum value"⟩ : ValidationIssue) ∈ calorieFormSchemaIssues f := by
  intro f h1 h2
  unfold calorieFormSchemaIssues genderIssues
  simp [h1, h2]

/-- Witness for C8 at gender `"other"`. -/
theorem calorieFormSchema_sexExhaustive_witness :
    (⟨"gender", "Invalid enum value"⟩ : ValidationIssue) ∈
      calorieFormSchemaIssues ⟨"other", 30, 70, 175, "1.55"⟩ :=
  calorieFormSchema_sexExhaustive ⟨"other", 30, 70, 175, "1.55"⟩ (by decide) (by decide)

/-- C9: the submit computation is deterministic: its result depends only
on the five input fields, so two calls on identical data give identical
`CalculationResult`s — the embedding is a pure function of the input with
no hidden state, counter, timestamp or randomness. -/
theorem onSubmitResult_deterministic :
    ∀ d₁ d₂ : CalorieFormRaw,
      d₁.gender = d₂.gender → d₁.age = d₂.age → d₁.weight = d₂.weight →
      d₁.height = d₂.height → d₁.activityLevel = d₂.activityLevel →
      onSubmitResult d₁ = onSubmitResult d₂ := by
  intro ⟨g₁, a₁, w₁, h₁, l₁⟩ ⟨g₂, a₂, w₂, h₂, l₂⟩ hg ha hw hh hl
  simp_all

/-- Witness for C9: two identical concrete calls agree. -/
theorem onSubmitResult_deterministic_witness :
    onSubmitResult ⟨"male", 25, 70, 175, "1.55"⟩ =
      onSubmitResult ⟨"male", 25, 70, 175, "1.55"⟩ :=
  onSubmitResult_deterministic _ _ rfl rfl rfl rfl rfl

/-- C10: every gender other than `"male"` is computed exactly as
`"female"`, and the male result always equals the female result at the
same inputs plus the constant integer offset 166. -/
theorem calculateBMR_genderOffset :
    (∀ (g : String) (w h a : ℚ), g ≠ "male" →
      calculateBMR g w h a = calculateBMR "female" w h a) ∧
    (∀ w h a : ℚ, calculateBMR "male" w h a = calculateBMR "female" w h a + 166) := by
  constructor
  · intro g w h a hg
    simp [calculateBMR, hg]
  · intro w h a
    have hsplit : (10 * w + 6.25 * h - 5 * a + 5 : ℚ) =
        (10 * w + 6.25 * h - 5 * a - 161) + (166 : ℤ) := by
      push_cast
      ring
    have hm : calculateBMR "male" w h a = round (10 * w + 6.25 * h - 5 * a + 5) := by
      simp [calculateBMR]
    have hf : calculateBMR "female" w h a = round (10 * w + 6.25 * h - 5 * a - 161) := by
      simp [calculateBMR]
    rw [hm, hf, hsplit, round_add_int]

/-- Witness for C10 at gender `"x"`. -/
theorem calculateBMR_genderOffset_witness :
    calculateBMR "x" 70 175 25 = calculateBMR "female" 70 175 25 :=
  calculateBMR_genderOffset.1 "x" 70 175 25 (by decide)

end CalorieCount
